import Mathlib

/-!
Verification model of the swing-your-swing media ingestion and analysis
pipeline.  The definitions below are a shallow embedding of the server
source: the Express route handlers in `app/api/src/index.ts`, the SQLite
schema created by `initSchema` in `app/api/src/db/index.ts`, the Gemini
client (`gemini.service.ts`, in particular `waitForFileActive` and
`analyzeSwingVideo`), the transcoder (`video.compression.ts`,
`compressVideo`) and the local pose extractor (`pose.service.ts`,
`analyzePose`).

JavaScript values that flow out of `JSON.parse` are modelled by `JsVal`;
property access, truthiness and the `bun:sqlite` parameter-binding rules
are modelled explicitly, since several route handlers depend on them.
-/

namespace SwingYourSwing

/-- A JavaScript value as produced by `JSON.parse` (no `undefined` inside
a parsed document; `undefined` shows up only as the absence of a value,
modelled with `Option JsVal`).  Numeric values are modelled as integers:
every numeric literal the handlers move around is bound or serialized
unchanged, so the precision of the numeric carrier is irrelevant to the
properties proved here. -/
inductive JsVal where
  | vnull : JsVal
  | vbool (b : Bool) : JsVal
  | vnum (n : Int) : JsVal
  | vstr (s : String) : JsVal
  | vobj (fields : List (String × JsVal)) : JsVal
  | varr (elems : List JsVal) : JsVal

/-- JavaScript truthiness of a value (used by `if (aiData)`,
`if (result.error)`, `if (roadmaps && ...)` in the handlers). -/
def jsTruthy : JsVal → Bool
  | .vnull => false
  | .vbool b => b
  | .vnum n => n != 0
  | .vstr s => s != ""
  | .vobj _ => true
  | .varr _ => true

/-- JavaScript property access `v[k]`.  Access on `null` throws a
`TypeError` (`.error ()`); on an object it yields the field or
`undefined` (`none`); arrays and strings expose `length`; any other
access on a primitive yields `undefined`. -/
def jsMember : JsVal → String → Except Unit (Option JsVal)
  | .vnull, _ => .error ()
  | .vobj fields, k => .ok ((fields.find? (fun p => p.1 == k)).map (fun p => p.2))
  | .varr elems, k => .ok (if k == "length" then some (.vnum elems.length) else none)
  | .vstr s, k => .ok (if k == "length" then some (.vnum s.length) else none)
  | .vbool _, _ => .ok none
  | .vnum _, _ => .ok none

/-- Two-step property access `v[k1][k2]` as evaluated by JavaScript:
if `v[k1]` is `undefined` (or `v` is `null`), the second access throws a
`TypeError`. -/
def jsPath2 (v : JsVal) (k1 k2 : String) : Except Unit (Option JsVal) :=
  match jsMember v k1 with
  | .error () => .error ()
  | .ok none => .error ()
  | .ok (some v1) => jsMember v1 k2

/-- Minimal JSON string escaping (quote and backslash), enough for a
faithful total model of `JSON.stringify` on the values the pipeline
stores. -/
def jsonEscape (s : String) : String :=
  String.mk (s.data.foldr (fun c acc =>
    if c = '"' ∨ c = '\\' then '\\' :: c :: acc else c :: acc) [])

mutual

/-- `JSON.stringify` on a defined value. -/
def jsonSer : JsVal → String
  | .vnull => "null"
  | .vbool true => "true"
  | .vbool false => "false"
  | .vnum n => toString n
  | .vstr s => "\"" ++ jsonEscape s ++ "\""
  | .vobj fields => "\x7b" ++ String.intercalate "," (jsonSerFields fields) ++ "\x7d"
  | .varr elems => "[" ++ String.intercalate "," (jsonSerElems elems) ++ "]"

def jsonSerFields : List (String × JsVal) → List String
  | [] => []
  | (k, v) :: rest =>
      ("\"" ++ jsonEscape k ++ "\":" ++ jsonSer v) :: jsonSerFields rest

def jsonSerElems : List JsVal → List String
  | [] => []
  | v :: rest => jsonSer v :: jsonSerElems rest

end

/-- `JSON.stringify` lifted to a possibly-`undefined` argument:
`JSON.stringify(undefined)` is `undefined`. -/
def jsonStringify : Option JsVal → Option String
  | none => none
  | some v => some (jsonSer v)

/-- A value stored in one SQLite column. -/
inductive SqlVal where
  | null : SqlVal
  | int (n : Int) : SqlVal
  | text (s : String) : SqlVal
deriving DecidableEq, Repr

/-- `bun:sqlite` parameter binding: `null` and `undefined` bind as SQL
NULL, numbers and booleans as numbers, strings as text; binding an
object or an array throws. -/
def bindVal : Option JsVal → Except Unit SqlVal
  | none => .ok .null
  | some .vnull => .ok .null
  | some (.vnum n) => .ok (.int n)
  | some (.vstr s) => .ok (.text s)
  | some (.vbool b) => .ok (.int (if b then 1 else 0))
  | some (.vobj _) => .error ()
  | some (.varr _) => .error ()

/-- Binding a serialized-JSON column (`JSON.stringify(...)` argument):
always succeeds, `undefined` becomes NULL. -/
def bindStr : Option String → SqlVal
  | none => .null
  | some s => .text s

/-! ### The SQLite schema created by `initSchema` (`app/api/src/db/index.ts`)

`initSchema` creates exactly the tables `players`, `swings`,
`launch_monitor_data`, `swing_metrics`, `lessons` and `toro_baselines`,
with exactly the columns listed below.  Notably the `swings` table has
no `isFavorite` column and there is no `comments` table, although the
route handlers in `index.ts` reference both.  `db.prepare` of a
statement naming a missing table or column throws, which the handlers
surface as a 500 response. -/
def initSchemaTables : List (String × List String) :=
  [("players", ["id", "name", "handicap", "createdAt"]),
   ("swings", ["id", "playerId", "club", "videoUrl", "analyzed", "createdAt"]),
   ("launch_monitor_data",
    ["id", "swingId", "imageUrl", "ballSpeed", "clubSpeed", "smashFactor",
     "carry", "spinRate", "extractedRawText", "createdAt"]),
   ("swing_metrics",
    ["id", "swingId", "addressTimeMs", "topTimeMs", "impactTimeMs",
     "finishTimeMs", "addressAngles", "topAngles", "impactAngles",
     "finishAngles", "estimatedClubSpeed", "estimatedClubPath",
     "estimatedDistance", "createdAt"]),
   ("lessons", ["id", "swingId", "goalType", "drills", "aiReview", "createdAt"]),
   ("toro_baselines",
    ["id", "club", "addressAngles", "topAngles", "impactAngles", "finishAngles"])]

/-- Whether `initSchema`'s database has the given table. -/
def hasTable (t : String) : Bool :=
  initSchemaTables.any (fun p => p.1 == t)

/-- Columns of a table of `initSchema`'s database. -/
def tableCols (t : String) : List String :=
  ((initSchemaTables.find? (fun p => p.1 == t)).map (fun p => p.2)).getD []

/-- `db.prepare` succeeds exactly when the statement's table exists and
every referenced column exists in it. -/
def prepareOk (t : String) (cols : List String) : Bool :=
  hasTable t && cols.all (fun c => (tableCols t).contains c)

/-- The `PRAGMA` statements executed on the connection in
`db/index.ts`: only `journal_mode = WAL`.  In particular
`foreign_keys` is never turned on, so SQLite's (default-off) foreign
key enforcement stays disabled. -/
def connectionPragmas : List (String × String) := [("journal_mode", "WAL")]

/-! ### Typed rows for the tables the claims touch -/

/-- One row of `swings` (`createdAt` omitted: it is a SQLite default the
handlers never read or write explicitly). -/
structure SwingRow where
  id : String
  playerId : String
  club : String
  videoUrl : String
  analyzed : Int
deriving DecidableEq, Repr

/-- One row of `swing_metrics`: the stored `AnalysisResult`. -/
structure MetricsRow where
  id : String
  swingId : String
  addressTimeMs : SqlVal
  topTimeMs : SqlVal
  impactTimeMs : SqlVal
  finishTimeMs : SqlVal
  addressAngles : SqlVal
  topAngles : SqlVal
  impactAngles : SqlVal
  finishAngles : SqlVal
  estimatedClubSpeed : SqlVal
  estimatedClubPath : SqlVal
  estimatedDistance : SqlVal
deriving DecidableEq, Repr

/-- One row of `lessons`: a stored `CoachingRoadmap`. -/
structure LessonRow where
  id : String
  swingId : String
  goalType : SqlVal
  drills : SqlVal
  aiReview : SqlVal
deriving DecidableEq, Repr

/-- One row of `launch_monitor_data`. -/
structure LaunchRow where
  id : String
  swingId : String
  imageUrl : String
  ballSpeed : SqlVal
  clubSpeed : SqlVal
  smashFactor : SqlVal
  carry : SqlVal
  spinRate : SqlVal
  extractedRawText : SqlVal
deriving DecidableEq, Repr

/-- The database state (tables the claims touch). -/
structure DB where
  swings : List SwingRow
  swing_metrics : List MetricsRow
  lessons : List LessonRow
  launch_monitor_data : List LaunchRow
deriving DecidableEq, Repr

def DB.empty : DB := ⟨[], [], [], []⟩

/-! ### The metrics insert of the upload handler (`index.ts` lines 71-94)

With `aiData` the parsed analysis result, the handler evaluates the
thirteen `insertMetrics.run` arguments in order — the four
`aiData.timestampsMs.*` accesses throw a `TypeError` when
`timestampsMs` is missing or `null` — and then binds them; binding an
object or array value throws.  There is no structural validation:
missing or `null` fields are simply stored as NULL. -/
def bindMetricsArgs (metricsId swingId : String)
    (ta tt ti tf aA tA iA fA sp pa di : Option JsVal) :
    Except Unit MetricsRow := do
  let bta ← bindVal ta
  let btt ← bindVal tt
  let bti ← bindVal ti
  let btf ← bindVal tf
  let bsp ← bindVal sp
  let bpa ← bindVal pa
  let bdi ← bindVal di
  .ok ⟨metricsId, swingId, bta, btt, bti, btf,
    bindStr (jsonStringify aA), bindStr (jsonStringify tA),
    bindStr (jsonStringify iA), bindStr (jsonStringify fA),
    bsp, bpa, bdi⟩

def storeMetrics (aiData : JsVal) (metricsId swingId : String) :
    Except Unit MetricsRow := do
  let ta ← jsPath2 aiData "timestampsMs" "address"
  let tt ← jsPath2 aiData "timestampsMs" "top"
  let ti ← jsPath2 aiData "timestampsMs" "impact"
  let tf ← jsPath2 aiData "timestampsMs" "finish"
  let aA ← jsMember aiData "addressAngles"
  let tA ← jsMember aiData "topAngles"
  let iA ← jsMember aiData "impactAngles"
  let fA ← jsMember aiData "finishAngles"
  let sp ← jsMember aiData "estimatedClubSpeed"
  let pa ← jsMember aiData "estimatedClubPath"
  let di ← jsMember aiData "estimatedDistance"
  bindMetricsArgs metricsId swingId ta tt ti tf aA tA iA fA sp pa di

/-- The full-population predicate of the `AnalysisResult` invariant:
all four checkpoint timestamps and all four angle sets non-NULL. -/
def fullyPopulated (r : MetricsRow) : Bool :=
  r.addressTimeMs != .null && r.topTimeMs != .null &&
  r.impactTimeMs != .null && r.finishTimeMs != .null &&
  r.addressAngles != .null && r.topAngles != .null &&
  r.impactAngles != .null && r.finishAngles != .null

/-! ### The lessons insert loop (`index.ts` lines 96-105)

`generateLessonRoadmap` catches every error and returns `null`, so its
outcome is `Option JsVal`.  The handler guards with
`if (roadmaps && roadmaps.length > 0)` and then iterates
`for (const rm of roadmaps)`. -/

/-- JavaScript evaluation of `x > 0` for the value read off `.length`
(numbers compare directly; strings and booleans coerce; `undefined`,
`null` and objects compare false). -/
def jsLengthPositive : Option JsVal → Bool
  | some (.vnum n) => decide (0 < n)
  | some (.vstr s) => match s.toInt? with
    | some n => decide (0 < n)
    | none => false
  | some (.vbool b) => b
  | _ => false

/-- `for (const rm of v)`: arrays yield their elements, strings their
characters; any other value is not iterable and throws. -/
def jsIterate : JsVal → Except Unit (List JsVal)
  | .varr es => .ok es
  | .vstr s => .ok (s.data.map (fun c => .vstr (String.mk [c])))
  | _ => .error ()

/-- One `insertLesson.run(uuidv4(), swingId, rm.goalType,
JSON.stringify(rm.drills), rm.aiReview)`.  The `lessons` table carries
`CHECK(goalType IN ('Ideal', 'Playable'))`; in SQLite a NULL passes the
check, any other non-matching value makes the insert throw. -/
def lessonRowOf (lessonId swingId : String) (rm : JsVal) :
    Except Unit LessonRow := do
  let gt ← jsMember rm "goalType"
  let dr ← jsMember rm "drills"
  let ar ← jsMember rm "aiReview"
  let bgt ← bindVal gt
  let bar ← bindVal ar
  if bgt = SqlVal.null ∨ bgt = .text "Ideal" ∨ bgt = .text "Playable" then
    .ok ⟨lessonId, swingId, bgt, bindStr (jsonStringify dr), bar⟩
  else .error ()

/-- The insert loop body: rows are inserted one at a time, so an error
thrown mid-loop keeps the rows already inserted.  Returns the inserted
rows and whether the loop threw. -/
def insertLessonsLoop (swingId : String) (gen : Nat → String) :
    List (Nat × JsVal) → List LessonRow × Bool
  | [] => ([], false)
  | p :: rest =>
    match lessonRowOf (gen p.1) swingId p.2 with
    | .error () => ([], true)
    | .ok row =>
      let t := insertLessonsLoop swingId gen rest
      (row :: t.1, t.2)

/-- The roadmap persistence stage: the rows appended to `lessons` and
whether an error was thrown.  A `null`, falsy, or empty roadmap list
stores nothing and is not an error. -/
def roadmapStage (roadmaps : Option JsVal) (swingId : String)
    (lessonIdGen : Nat → String) : List LessonRow × Bool :=
  match roadmaps with
  | none => ([], false)
  | some r =>
    if jsTruthy r then
      match jsMember r "length" with
      | .error () => ([], true)
      | .ok len =>
        if jsLengthPositive len then
          match jsIterate r with
          | .error () => ([], true)
          | .ok items => insertLessonsLoop swingId lessonIdGen items.enum
        else ([], false)
    else ([], false)

/-! ### The transcoder (`video.compression.ts`) -/

/-- Split a character list on a separator character (the list of
fields, last field last; an empty input gives one empty field). -/
def splitOnChar (c : Char) : List Char → List (List Char)
  | [] => [[]]
  | x :: xs =>
    let r := splitOnChar c xs
    if x = c then [] :: r
    else
      match r with
      | [] => [[x]]
      | y :: ys => (x :: y) :: ys

/-- Split a string on a separator character. -/
def splitChar (c : Char) (s : String) : List String :=
  (splitOnChar c s.data).map String.mk

/-- `path.basename`. -/
def basename (p : String) : String := (splitChar '/' p).getLastD p

/-- `path.dirname`. -/
def dirname (p : String) : String :=
  let parts := splitChar '/' p
  if parts.length ≤ 1 then "." else String.intercalate "/" parts.dropLast

/-- `path.extname` (".mp4" for "a.mp4", "" when there is no extension or
for a leading-dot-only name). -/
def extname (p : String) : String :=
  let parts := splitChar '.' (basename p)
  if parts.length ≤ 1 then ""
  else if parts.headI = "" ∧ parts.length = 2 then ""
  else "." ++ parts.getLastD ""

/-- `TARGET_SIZE_MB = 25`, the transcoder's size budget. -/
def TARGET_SIZE_MB : ℚ := 25

/-- The computed target video bitrate in kbps (`compressVideo`):
`Math.max(500, Math.floor((TARGET_SIZE_MB*8*1024*1024/durationSec - 128*1024)/1024))`. -/
def videoBitrateKbps (durationSec : ℚ) : Int :=
  max 500 (Int.floor (((TARGET_SIZE_MB * 8 * 1024 * 1024) / durationSec - 128 * 1024) / 1024))

/-- `getVideoDuration`: `metadata.format.duration || 10` — a missing or
zero duration falls back to 10 seconds (no division by zero). -/
def effectiveDuration : Option ℚ → ℚ
  | none => 10
  | some d => if d = 0 then 10 else d

/-- Which encode `compressVideo` performs. -/
inductive EncodePlan where
  | crf (quality : Nat) : EncodePlan
  | bitrate (kbps : Int) : EncodePlan
deriving DecidableEq, Repr

/-- `compressVideo`'s branch: at or below the 25MB budget a fixed CRF-23
re-encode, otherwise a bitrate-targeted encode. -/
def compressPlan (durationSec inputSizeMB : ℚ) : EncodePlan :=
  if inputSizeMB ≤ TARGET_SIZE_MB then .crf 23
  else .bitrate (videoBitrateKbps durationSec)

/-- The collision-free output path `compressVideo` writes:
`path.join(dirname(input), "compressed-" + uuidv4() + extname(input))`. -/
def compressedPath (inputPath uuid : String) : String :=
  dirname inputPath ++ "/" ++ ("compressed-" ++ uuid ++ extname inputPath)

/-- Delete a path from the working filesystem (`fs.unlink` through
`cleanupOriginal`, which tolerates an already-missing file). -/
def fsRemove (fs : List String) (p : String) : List String :=
  fs.filter (fun q => q ≠ p)

/-! ### The upload route handler (`index.ts` lines 40-115) -/

/-- The uploaded multipart file as multer stores it. -/
structure UploadedFile where
  path : String
  filename : String
  mimetype : String
deriving DecidableEq, Repr

/-- HTTP responses the handlers produce. -/
inductive HttpResponse where
  | ok (message : String) (swingId : Option String) : HttpResponse
  | badRequest (error : String) : HttpResponse
  | notFound (error : String) : HttpResponse
  | serverError (error : String) : HttpResponse
deriving DecidableEq, Repr

/-- The outcome of `analyzeSwingVideo`: `null` when the API key is the
dummy placeholder; a rethrown error on any network, quota, upload,
polling-timeout or JSON-parse failure (the service's `catch` logs and
`throw error`s); otherwise the parsed JSON value. -/
inductive AnalysisOutcome where
  | unavailable : AnalysisOutcome
  | failed (msg : String) : AnalysisOutcome
  | parsed (v : JsVal) : AnalysisOutcome

/-- The coordinator's transcoding stage (`index.ts` lines 49-58): on
success the compressed file is the working file and `cleanupOriginal`
has deleted the raw upload; on failure the handler catches the error,
logs, and keeps the original as the working file.  Returns
`(absolutePath, videoUrl, filesystem)`. -/
def transcodeStage (f : UploadedFile) (uuid : String) (encSuccess : Bool)
    (fs : List String) : String × String × List String :=
  if encSuccess then
    let out := compressedPath f.path uuid
    (out, "/uploads/" ++ basename out, fsRemove (fs ++ [out]) f.path)
  else
    (f.path, "/uploads/" ++ f.filename, fs)

/-- The upload handler from the swing insert onward: durably insert the
`swings` row with `analyzed = 0`, run the analysis on the working file,
persist metrics and lessons when a parsed result arrived, set
`analyzed = 1`, and answer.  Any error thrown in these stages is caught
by the route's `catch`, which answers 500 with the error message. -/
def uploadAfterTranscode (club playerId swingId metricsId : String)
    (lessonIdGen : Nat → String) (absolutePath videoUrl : String)
    (analyze : String → AnalysisOutcome) (roadmaps : Option JsVal)
    (db : DB) (fs : List String) : HttpResponse × DB × List String :=
  if prepareOk "swings" ["id", "playerId", "club", "videoUrl", "analyzed"] then
    if db.swings.any (fun s => s.id == swingId) then
      (.serverError "UNIQUE constraint failed: swings.id", db, fs)
    else
      let db1 : DB := { db with swings := db.swings ++ [⟨swingId, playerId, club, videoUrl, 0⟩] }
      match analyze absolutePath with
      | .failed msg => (.serverError msg, db1, fs)
      | .unavailable => (.ok "Upload queued and analyzed" (some swingId), db1, fs)
      | .parsed aiData =>
        if jsTruthy aiData then
          if prepareOk "swing_metrics"
              ["id", "swingId", "addressTimeMs", "topTimeMs", "impactTimeMs",
               "finishTimeMs", "addressAngles", "topAngles", "impactAngles",
               "finishAngles", "estimatedClubSpeed", "estimatedClubPath",
               "estimatedDistance"] then
            match storeMetrics aiData metricsId swingId with
            | .error () => (.serverError "TypeError", db1, fs)
            | .ok mrow =>
              if db1.swing_metrics.any (fun m => m.id == metricsId || m.swingId == swingId) then
                (.serverError "UNIQUE constraint failed: swing_metrics", db1, fs)
              else
                let db2 : DB := { db1 with swing_metrics := db1.swing_metrics ++ [mrow] }
                if prepareOk "lessons" ["id", "swingId", "goalType", "drills", "aiReview"] then
                  let lr := roadmapStage roadmaps swingId lessonIdGen
                  let db3 : DB := { db2 with lessons := db2.lessons ++ lr.1 }
                  if lr.2 then (.serverError "lesson insert failed", db3, fs)
                  else
                    if prepareOk "swings" ["analyzed", "id"] then
                      let upd : SwingRow → SwingRow :=
                        fun s => if s.id == swingId then { s with analyzed := 1 } else s
                      let db4 : DB := { db3 with swings := db3.swings.map upd }
                      (.ok "Upload queued and analyzed" (some swingId), db4, fs)
                    else (.serverError "prepare failed", db3, fs)
                else (.serverError "prepare failed", db2, fs)
          else (.serverError "prepare failed", db1, fs)
        else (.ok "Upload queued and analyzed" (some swingId), db1, fs)
  else (.serverError "prepare failed", db, fs)

/-- `POST /api/swings/upload`: reject when the file or the club is
missing or falsy; transcode (failure non-fatal); then the insert /
analyze / persist pipeline. -/
def uploadHandler (file : Option UploadedFile) (club : Option String)
    (playerId : Option String) (swingId metricsId uuid : String)
    (lessonIdGen : Nat → String) (encSuccess : Bool)
    (analyze : String → AnalysisOutcome) (roadmaps : Option JsVal)
    (db : DB) (fs : List String) : HttpResponse × DB × List String :=
  match file with
  | none => (.badRequest "Missing video file or club type", db, fs)
  | some f =>
    match club with
    | none => (.badRequest "Missing video file or club type", db, fs)
    | some c =>
      if c = "" then (.badRequest "Missing video file or club type", db, fs)
      else
        let t := transcodeStage f uuid encSuccess fs
        uploadAfterTranscode c (playerId.getD "usr_12345") swingId metricsId
          lessonIdGen t.1 t.2.1 analyze roadmaps db t.2.2

/-! ### The upload-readiness poll (`gemini.service.ts`, `waitForFileActive`)

The loop checks `Date.now() - start < MAX_WAIT_MS` before each
`ai.files.get`, sleeping `POLL_INTERVAL_MS` between polls, so poll `k`
happens at elapsed time `k * POLL_INTERVAL_MS`.  The remote state at the
`k`-th poll is an oracle `states k`. -/

/-- Remote file state as reported by `ai.files.get`. -/
inductive FileState where
  | active : FileState
  | failed : FileState
  | pending (s : String) : FileState
deriving DecidableEq, Repr

/-- The two errors `waitForFileActive` can raise. -/
inductive PollError where
  | processingFailed : PollError
  | timeout : PollError
deriving DecidableEq, Repr

/-- `MAX_WAIT_MS = 120_000`. -/
def MAX_WAIT_MS : Nat := 120000

/-- `POLL_INTERVAL_MS = 3_000`. -/
def POLL_INTERVAL_MS : Nat := 3000

/-- The while-loop of `waitForFileActive`, with `k` the number of polls
already made: `ACTIVE` returns immediately, `FAILED` throws immediately,
any other state sleeps and re-polls; once the elapsed time reaches
`MAX_WAIT_MS` the loop exits and the timeout error is thrown.  The fuel
argument is strictly larger than the largest possible number of
iterations, so the fuel-exhaustion branch is unreachable. -/
def pollLoop (states : Nat → FileState) : Nat → Nat → Except PollError Unit
  | 0, _ => .error .timeout
  | fuel + 1, k =>
    if POLL_INTERVAL_MS * k < MAX_WAIT_MS then
      match states k with
      | .active => .ok ()
      | .failed => .error .processingFailed
      | .pending _ => pollLoop states fuel (k + 1)
    else .error .timeout

/-- `waitForFileActive`. -/
def waitForFileActive (states : Nat → FileState) : Except PollError Unit :=
  pollLoop states (MAX_WAIT_MS / POLL_INTERVAL_MS + 1) 0

/-! ### The local pose extractor (`pose.service.ts`, `analyzePose`) -/

/-- `String.prototype.slice(0, n)`. -/
def strSlice (s : String) (n : Nat) : String := String.mk (s.data.take n)

/-- JavaScript truthiness of a possibly-`undefined` value. -/
def jsTruthyOpt : Option JsVal → Bool
  | none => false
  | some v => jsTruthy v

mutual

/-- JavaScript string conversion (template-literal interpolation of
`result.error`). -/
def jsToStr : JsVal → String
  | .vnull => "null"
  | .vbool true => "true"
  | .vbool false => "false"
  | .vnum n => toString n
  | .vstr s => s
  | .vobj _ => "[object Object]"
  | .varr es => String.intercalate "," (jsToStrElems es)

def jsToStrElems : List JsVal → List String
  | [] => []
  | .vnull :: rest => "" :: jsToStrElems rest
  | v :: rest => jsToStr v :: jsToStrElems rest

end

/-- The typed errors `analyzePose` can reject with; the four
constructors correspond to the four distinct `new Error(...)` sites. -/
inductive PoseError where
  | exitNonZero (code : Int) (stderrExcerpt : String) : PoseError
  | embeddedError (message : String) : PoseError
  | parseFailed (stdoutExcerpt : String) : PoseError
  | spawnFailed (message : String) : PoseError
deriving Repr

/-- The `close` handler of `analyzePose`: a non-zero exit rejects with
up to 500 characters of stderr; then `JSON.parse(stdout.trim())` runs
inside a `try` whose `catch` rejects with up to 200 characters of
stdout; a truthy `result.error` rejects with that error interpolated;
the success `console.log` reads `result.timestampsMs.address`, so a
missing or `null` `timestampsMs` (or a `null`/non-object `result`)
throws a TypeError that the same `catch` turns into the parse-failure
rejection.  `parsed` is the outcome of the JavaScript built-in
`JSON.parse` on `stdout.trim()` (`none` = parse threw). -/
def poseCloseHandler (code : Int) (stdout stderr : String)
    (parsed : Option JsVal) : Except PoseError JsVal :=
  if code ≠ 0 then .error (.exitNonZero code (strSlice stderr 500))
  else
    match parsed with
    | none => .error (.parseFailed (strSlice stdout 200))
    | some result =>
      match jsMember result "error" with
      | .error () => .error (.parseFailed (strSlice stdout 200))
      | .ok errField =>
        if jsTruthyOpt errField then
          .error (.embeddedError ("Pose analysis error: " ++ jsToStr (errField.getD .vnull)))
        else
          match jsMember result "timestampsMs" with
          | .error () => .error (.parseFailed (strSlice stdout 200))
          | .ok none => .error (.parseFailed (strSlice stdout 200))
          | .ok (some .vnull) => .error (.parseFailed (strSlice stdout 200))
          | .ok (some _) => .ok result

/-- What happened to the spawned python process. -/
inductive SpawnOutcome where
  | spawnError (msg : String) : SpawnOutcome
  | closed (code : Int) (stdout stderr : String) (parsed : Option JsVal) : SpawnOutcome

/-- `analyzePose`: spawn failure rejects with the distinct, actionable
setup message; otherwise the `close` handler decides. -/
def analyzePose (pythonBin : String) : SpawnOutcome → Except PoseError JsVal
  | .spawnError msg =>
    .error (.spawnFailed ("Failed to spawn " ++ pythonBin ++ ": " ++ msg ++
      ". Run: python3.12 -m venv .venv && source .venv/bin/activate && pip install mediapipe opencv-python numpy"))
  | .closed code stdout stderr parsed => poseCloseHandler code stdout stderr parsed

/-! ### Favorite, delete, fetch and launch-monitor handlers -/

/-- `POST /api/swings/:id/favorite` (`index.ts` lines 199-212).  The
first statement, `db.prepare('SELECT isFavorite FROM swings WHERE id =
?')`, throws: the `swings` table created by `initSchema` has no
`isFavorite` column.  The `catch` answers 500, so the toggle statements
below it can never run against this schema (see
`favoriteToggleIntended` for their logic over a schema that has the
column). -/
def favoriteHandler (db : DB) (swingId : String) : HttpResponse × DB :=
  if h : prepareOk "swings" ["isFavorite", "id"] = true then
    False.elim (by revert h; decide)
  else (.serverError "no such column: isFavorite", db)

/-- JavaScript truthiness of a value read from a SQLite column
(`swing.isFavorite ? 0 : 1`). -/
def sqlTruthy : SqlVal → Bool
  | .null => false
  | .int n => n != 0
  | .text s => s != ""

/-- A `swings` row extended with the `isFavorite` column that
`index.ts` assumes (and that the shared `Swing` type declares) but that
`initSchema` never creates. -/
structure SwingRowFav extends SwingRow where
  isFavorite : SqlVal
deriving DecidableEq, Repr

/-- The toggle logic of `index.ts` lines 202-207, over a `swings` table
that does have the `isFavorite` column: read the flag, invert its
truthiness into 0/1, write it back. -/
def favoriteToggleIntended (swings : List SwingRowFav) (swingId : String) :
    HttpResponse × List SwingRowFav :=
  match swings.find? (fun s => s.id == swingId) with
  | none => (.notFound "Not found", swings)
  | some row =>
    let newStatus : Int := if sqlTruthy row.isFavorite then 0 else 1
    (.ok "Favorite status updated" none,
     swings.map (fun s => if s.id == swingId then { s with isFavorite := .int newStatus } else s))

/-- `DELETE /api/swings/:id` (`index.ts` lines 166-197): after the
existence check, the first cascade statement is `db.prepare('DELETE
FROM comments WHERE swingId = ?')` — but `initSchema` creates no
`comments` table, so prepare throws, the `catch` answers 500, and none
of the launch-monitor / lessons / metrics / swings deletes run. -/
def deleteHandler (db : DB) (swingId : String) : HttpResponse × DB :=
  if prepareOk "swings" ["videoUrl", "id"] then
    match db.swings.find? (fun s => s.id == swingId) with
    | none => (.notFound "Not found", db)
    | some _ =>
      if h : prepareOk "comments" ["swingId"] = true then
        False.elim (by revert h; decide)
      else (.serverError "no such table: comments", db)
  else (.serverError "prepare failed", db)

/-- The cascade-delete logic of `index.ts` lines 172-176 over a schema
that does have the `comments` table: remove the swing together with its
metrics, lessons and launch-monitor rows. -/
def deleteCascadeIntended (db : DB) (swingId : String) : HttpResponse × DB :=
  match db.swings.find? (fun s => s.id == swingId) with
  | none => (.notFound "Not found", db)
  | some _ =>
    (.ok "Swing deleted successfully" none,
     { swings := db.swings.filter (fun s => s.id ≠ swingId),
       swing_metrics := db.swing_metrics.filter (fun m => m.swingId ≠ swingId),
       lessons := db.lessons.filter (fun l => l.swingId ≠ swingId),
       launch_monitor_data := db.launch_monitor_data.filter (fun l => l.swingId ≠ swingId) })

/-- `GET /api/swings/:id` (`index.ts` lines 230-251): a missing swing
answers 404 before any further query runs.  (For an existing swing the
handler goes on to query the `comments` table `initSchema` never
creates, which errors.) -/
def getSwingHandler (db : DB) (swingId : String) : HttpResponse :=
  match db.swings.find? (fun s => s.id == swingId) with
  | none => .notFound "Not found"
  | some _ =>
    if h : prepareOk "comments" ["swingId"] = true then
      False.elim (by revert h; decide)
    else .serverError "no such table: comments"

/-- The `insertLM.run` argument evaluation and binding for
`POST /api/swings/:id/launch-monitor`. -/
def storeLaunchRow (data : JsVal) (lmId swingId imageUrl : String) :
    Except Unit LaunchRow := do
  let bs ← jsMember data "ballSpeed"
  let cs ← jsMember data "clubSpeed"
  let sf ← jsMember data "smashFactor"
  let ca ← jsMember data "carry"
  let sr ← jsMember data "spinRate"
  let rt ← jsMember data "extractedRawText"
  let bbs ← bindVal bs
  let bcs ← bindVal cs
  let bsf ← bindVal sf
  let bca ← bindVal ca
  let bsr ← bindVal sr
  let brt ← bindVal rt
  .ok ⟨lmId, swingId, imageUrl, bbs, bcs, bsf, bca, bsr, brt⟩

/-- `POST /api/swings/:id/launch-monitor` (`index.ts` lines 117-148).
Note the handler never queries the `swings` table: the `:id` path
parameter is inserted as `swingId` unchecked. -/
def launchMonitorHandler (db : DB) (swingId : String)
    (file : Option UploadedFile) (extraction : AnalysisOutcome)
    (lmId : String) : HttpResponse × DB :=
  match file with
  | none => (.badRequest "Missing image", db)
  | some f =>
    let imageUrl := "/uploads/" ++ f.filename
    match extraction with
    | .failed msg => (.serverError msg, db)
    | .unavailable => (.ok "File uploaded, AI unavailable." none, db)
    | .parsed data =>
      if jsTruthy data then
        if prepareOk "launch_monitor_data"
            ["id", "swingId", "imageUrl", "ballSpeed", "clubSpeed",
             "smashFactor", "carry", "spinRate", "extractedRawText"] then
          match storeLaunchRow data lmId swingId imageUrl with
          | .error () => (.serverError "bind failed", db)
          | .ok row =>
            if db.launch_monitor_data.any (fun l => l.swingId == swingId || l.id == lmId) then
              (.serverError "UNIQUE constraint failed", db)
            else
              (.ok "Launch monitor data attached." none,
               { db with launch_monitor_data := db.launch_monitor_data ++ [row] })
        else (.serverError "prepare failed", db)
      else (.ok "File uploaded, AI unavailable." none, db)

/-! ### Auxiliary predicates used by the theorems -/

/-- Total property lookup (the value of `v[k]`, `none` for
`undefined`); agrees with `jsMember` whenever `v` is not `null`. -/
def memberD (v : JsVal) (k : String) : Option JsVal :=
  match jsMember v k with
  | .ok o => o
  | .error () => none

/-- Whether a value is JavaScript's `null`. -/
def tsIsNull : JsVal → Bool
  | .vnull => true
  | _ => false

/-- Whether a (possibly `undefined`) value is bindable by `bun:sqlite`:
scalars and absence are, objects and arrays are not. -/
def scalarOpt : Option JsVal → Bool
  | none => true
  | some .vnull => true
  | some (.vnum _) => true
  | some (.vstr _) => true
  | some (.vbool _) => true
  | some (.vobj _) => false
  | some (.varr _) => false

/-- The exact condition under which the `swing_metrics` insert of the
upload handler goes through for a parsed analysis value: the
`timestampsMs` property must be present and non-`null` (else the
argument evaluation throws a TypeError), and every bound leaf must be a
bindable scalar or absent.  Nothing in this condition inspects the four
angle sets: they are serialized with `JSON.stringify` and always bind. -/
def metricsInsertOk (aiData : JsVal) : Bool :=
  match jsMember aiData "timestampsMs" with
  | .error () => false
  | .ok none => false
  | .ok (some ts) =>
    !(tsIsNull ts) &&
    (scalarOpt (memberD ts "address") && scalarOpt (memberD ts "top") &&
     scalarOpt (memberD ts "impact") && scalarOpt (memberD ts "finish") &&
     scalarOpt (memberD aiData "estimatedClubSpeed") &&
     scalarOpt (memberD aiData "estimatedClubPath") &&
     scalarOpt (memberD aiData "estimatedDistance"))

/-- The exact condition under which `analyzePose`'s promise resolves:
exit code zero, stdout parsed, no truthy embedded `error` field, and a
present non-`null` `timestampsMs` (the success log dereferences it). -/
def PoseSuccess (code : Int) (parsed : Option JsVal) : Prop :=
  code = 0 ∧ ∃ r, parsed = some r ∧ r ≠ .vnull ∧
    (∀ e, jsMember r "error" = .ok (some e) → jsTruthy e = false) ∧
    (∃ t, jsMember r "timestampsMs" = .ok (some t) ∧ t ≠ .vnull)

/-! ### Concrete inputs used by counterexamples and witnesses -/

/-- A fully populated angle set, as the analysis prompt requests. -/
def angleObjFull : JsVal :=
  .vobj [("spineAngle", .vnum 40), ("shoulderTurn", .vnum 90),
         ("hipTurn", .vnum 45), ("leadArmAngle", .vnum 170)]

/-- A syntactically valid analysis response whose four checkpoint
timestamps are JSON `null` but whose four angle sets are complete: a
structurally incomplete `AnalysisResult` that the handler nevertheless
persists. -/
def ctrAiData : JsVal :=
  .vobj [("timestampsMs",
          .vobj [("address", .vnull), ("top", .vnull),
                 ("impact", .vnull), ("finish", .vnull)]),
         ("addressAngles", angleObjFull), ("topAngles", angleObjFull),
         ("impactAngles", angleObjFull), ("finishAngles", angleObjFull),
         ("estimatedClubSpeed", .vnum 95),
         ("estimatedClubPath", .vstr "Straight"),
         ("estimatedDistance", .vnum 230)]

/-- A sample uploaded file. -/
def sampleFile : UploadedFile := ⟨"/u/a.mp4", "a.mp4", "video/mp4"⟩

/-- The upload request of the C1 counterexample: analysis returns
`ctrAiData`, coaching returns `null`. -/
def c1Run : HttpResponse × DB × List String :=
  uploadHandler (some sampleFile) (some "Driver") none "s1" "m1" "u1"
    (fun _ => "l1") true (fun _ => .parsed ctrAiData) none DB.empty ["/u/a.mp4"]

/-- The upload request of the C2 counterexample: the analysis stage
fails (network error) after the swing row was inserted. -/
def c2Run : HttpResponse × DB × List String :=
  uploadHandler (some sampleFile) (some "Driver") none "s1" "m1" "u1"
    (fun _ => "l1") true (fun _ => .failed "network error") none DB.empty ["/u/a.mp4"]

/-- A pose-extractor stdout JSON carrying an (empty, hence falsy)
embedded `error` field together with valid timestamps. -/
def ctrPoseResult : JsVal :=
  .vobj [("error", .vstr ""),
         ("timestampsMs",
          .vobj [("address", .vnum 100), ("top", .vnum 900),
                 ("impact", .vnum 1300), ("finish", .vnum 2000)])]

/-- A launch-monitor extraction result with some absent readings. -/
def sampleLaunchData : JsVal :=
  .vobj [("ballSpeed", .vnum 150), ("clubSpeed", .vnull),
         ("smashFactor", .vnull), ("carry", .vnum 250),
         ("spinRate", .vnull), ("extractedRawText", .vstr "Trackman")]

end SwingYourSwing


namespace SwingYourSwing

/-! ## Theorems -/

/-! ### Helper lemmas about the polling loop -/

theorem pollLoop_stops_on_active (states : Nat → FileState) (t : Nat)
    (ht : POLL_INTERVAL_MS * t < MAX_WAIT_MS)
    (hact : states t = .active)
    (hpend : ∀ j < t, ∃ s, states j = .pending s) :
    ∀ fuel k, k ≤ t → t - k < fuel → pollLoop states fuel k = .ok () := by
  intro fuel
  induction fuel with
  | zero => omega
  | succ f ih =>
    intro k hk hfuel
    rcases eq_or_lt_of_le hk with heq | hlt
    · subst heq
      simp only [pollLoop, if_pos ht, hact]
    · have hcond : POLL_INTERVAL_MS * k < MAX_WAIT_MS := by
        have : POLL_INTERVAL_MS * k ≤ POLL_INTERVAL_MS * t :=
          Nat.mul_le_mul_left _ (le_of_lt hlt)
        omega
      obtain ⟨s, hs⟩ := hpend k hlt
      simp only [pollLoop, if_pos hcond, hs]
      exact ih (k + 1) hlt (by omega)

theorem pollLoop_stops_on_failed (states : Nat → FileState) (t : Nat)
    (ht : POLL_INTERVAL_MS * t < MAX_WAIT_MS)
    (hfail : states t = .failed)
    (hpend : ∀ j < t, ∃ s, states j = .pending s) :
    ∀ fuel k, k ≤ t → t - k < fuel →
      pollLoop states fuel k = .error .processingFailed := by
  intro fuel
  induction fuel with
  | zero => omega
  | succ f ih =>
    intro k hk hfuel
    rcases eq_or_lt_of_le hk with heq | hlt
    · subst heq
      simp only [pollLoop, if_pos ht, hfail]
    · have hcond : POLL_INTERVAL_MS * k < MAX_WAIT_MS := by
        have : POLL_INTERVAL_MS * k ≤ POLL_INTERVAL_MS * t :=
          Nat.mul_le_mul_left _ (le_of_lt hlt)
        omega
      obtain ⟨s, hs⟩ := hpend k hlt
      simp only [pollLoop, if_pos hcond, hs]
      exact ih (k + 1) hlt (by omega)

theorem pollLoop_times_out (states : Nat → FileState)
    (hpend : ∀ k, POLL_INTERVAL_MS * k < MAX_WAIT_MS → ∃ s, states k = .pending s) :
    ∀ fuel k, pollLoop states fuel k = .error .timeout := by
  intro fuel
  induction fuel with
  | zero => intro k; rfl
  | succ f ih =>
    intro k
    by_cases hcond : POLL_INTERVAL_MS * k < MAX_WAIT_MS
    · obtain ⟨s, hs⟩ := hpend k hcond
      simp only [pollLoop, if_pos hcond, hs]
      exact ih (k + 1)
    · simp only [pollLoop, if_neg hcond]

/-! ### Evaluated `db.prepare` outcomes against the `initSchema` schema -/

theorem prepareOk_swings_insert :
    prepareOk "swings" ["id", "playerId", "club", "videoUrl", "analyzed"] = true := by decide

theorem prepareOk_metrics_insert :
    prepareOk "swing_metrics"
      ["id", "swingId", "addressTimeMs", "topTimeMs", "impactTimeMs",
       "finishTimeMs", "addressAngles", "topAngles", "impactAngles",
       "finishAngles", "estimatedClubSpeed", "estimatedClubPath",
       "estimatedDistance"] = true := by decide

theorem prepareOk_lessons_insert :
    prepareOk "lessons" ["id", "swingId", "goalType", "drills", "aiReview"] = true := by decide

theorem prepareOk_swings_update :
    prepareOk "swings" ["analyzed", "id"] = true := by decide

theorem prepareOk_launch_insert :
    prepareOk "launch_monitor_data"
      ["id", "swingId", "imageUrl", "ballSpeed", "clubSpeed",
       "smashFactor", "carry", "spinRate", "extractedRawText"] = true := by decide

theorem prepareOk_swings_select :
    prepareOk "swings" ["videoUrl", "id"] = true := by decide

/-- The favorite toggle's first statement references a column
`initSchema` never creates. -/
theorem prepareOk_isFavorite_false :
    prepareOk "swings" ["isFavorite", "id"] = false := by decide

/-- The delete cascade's first statement references a table
`initSchema` never creates. -/
theorem prepareOk_comments_false :
    prepareOk "comments" ["swingId"] = false := by decide

/-! ### Helper lemma: an upload whose analysis stage fails -/

/-- Shared helper: whatever the transcoding outcome, an upload whose
analysis stage throws answers 500 with the thrown message, while the
`swings` row inserted before the analysis remains, with `analyzed = 0`,
and no metrics row is added. -/
theorem upload_analysis_failure (f : UploadedFile) (c : String) (hc : c ≠ "")
    (pid : Option String) (sid mid uuid : String) (gen : Nat → String)
    (enc : Bool) (msg : String) (rm : Option JsVal) (db : DB)
    (fs : List String) (hfresh : ∀ s ∈ db.swings, s.id ≠ sid) :
    uploadHandler (some f) (some c) pid sid mid uuid gen enc
        (fun _ => .failed msg) rm db fs
      = (.serverError msg,
         { db with swings := db.swings ++
             [⟨sid, pid.getD "usr_12345", c, (transcodeStage f uuid enc fs).2.1, 0⟩] },
         (transcodeStage f uuid enc fs).2.2) := by
  have hany : db.swings.any (fun s => s.id == sid) = false := by
    simp only [List.any_eq_false]
    intro s hs
    simpa using hfresh s hs
  simp [uploadHandler, uploadAfterTranscode, if_neg hc, hany, prepareOk_swings_insert]

/-! ### C3: the upload-readiness poll -/

/-- C3: the upload-readiness poll checks the remote file state at a
fixed 3-second interval with a 120-second maximum wait; it returns as
soon as the state is ACTIVE, raises an error as soon as the state is
FAILED, and raises a timeout error when the file never becomes ACTIVE
within the maximum wait — the loop always terminates; and the timeout
(like any analysis-stage error) leaves the uploaded Swing persisted
with `analyzed = 0` instead of crashing the request. -/
theorem C3_poll_contract (states : Nat → FileState) :
    (POLL_INTERVAL_MS = 3000 ∧ MAX_WAIT_MS = 120000)
    ∧ (∀ t, POLL_INTERVAL_MS * t < MAX_WAIT_MS →
        (∀ j < t, ∃ s, states j = .pending s) →
        (states t = .active → waitForFileActive states = .ok ()) ∧
        (states t = .failed → waitForFileActive states = .error .processingFailed))
    ∧ ((∀ k, POLL_INTERVAL_MS * k < MAX_WAIT_MS → ∃ s, states k = .pending s) →
        waitForFileActive states = .error .timeout)
    ∧ (∀ (f : UploadedFile) (c : String) (pid : Option String)
         (sid mid uuid : String) (gen : Nat → String) (enc : Bool)
         (msg : String) (rm : Option JsVal) (db : DB) (fs : List String),
        c ≠ "" → (∀ s ∈ db.swings, s.id ≠ sid) →
        ((uploadHandler (some f) (some c) pid sid mid uuid gen enc
            (fun _ => .failed msg) rm db fs).2.1.swings.filter
              (fun s => s.id == sid)).map SwingRow.analyzed = [0]) := by
  refine ⟨⟨rfl, rfl⟩, ?_, ?_, ?_⟩
  · intro t ht hpend
    have hb : t - 0 < MAX_WAIT_MS / POLL_INTERVAL_MS + 1 := by
      simp only [POLL_INTERVAL_MS, MAX_WAIT_MS] at ht ⊢
      omega
    constructor
    · intro hact
      exact pollLoop_stops_on_active states t ht hact hpend _ 0 (Nat.zero_le t) hb
    · intro hfail
      exact pollLoop_stops_on_failed states t ht hfail hpend _ 0 (Nat.zero_le t) hb
  · intro hpend
    exact pollLoop_times_out states hpend _ 0
  · intro f c pid sid mid uuid gen enc msg rm db fs hc hfresh
    rw [upload_analysis_failure f c hc pid sid mid uuid gen enc msg rm db fs hfresh]
    have hnone : db.swings.filter (fun s => s.id == sid) = [] := by
      rw [List.filter_eq_nil]
      intro s hs
      simpa using hfresh s hs
    simp [List.filter_append, hnone]

/-- Witness for C3 at concrete poll traces and a concrete upload. -/
theorem C3_poll_contract_witness :
    waitForFileActive (fun _ => .pending "PROCESSING") = .error .timeout
    ∧ waitForFileActive (fun k => if k = 2 then .active else .pending "PROCESSING") = .ok ()
    ∧ ((uploadHandler (some sampleFile) (some "Driver") none "s1" "m1" "u1"
          (fun _ => "l1") true (fun _ => .failed "timed out") none DB.empty
          []).2.1.swings.filter (fun s => s.id == "s1")).map SwingRow.analyzed = [0] := by
  refine ⟨?_, ?_, ?_⟩
  · exact (C3_poll_contract _).2.2.1 (fun k _ => ⟨"PROCESSING", rfl⟩)
  · refine ((C3_poll_contract _).2.1 2 (by decide) ?_).1 (by norm_num)
    intro j hj
    have : j ≠ 2 := by omega
    exact ⟨"PROCESSING", by simp [this]⟩
  · exact (C3_poll_contract (fun _ => .pending "x")).2.2.2 sampleFile "Driver" none
      "s1" "m1" "u1" (fun _ => "l1") true "timed out" none DB.empty []
      (by decide) (by simp [DB.empty])

/-! ### C5: the worked bitrate example -/

theorem videoBitrateKbps_at_60 : videoBitrateKbps 60 = 3285 := by
  unfold videoBitrateKbps TARGET_SIZE_MB
  have hf : Int.floor (((25 * 8 * 1024 * 1024 : ℚ) / 60 - 128 * 1024) / 1024) = 3285 := by
    rw [Int.floor_eq_iff]
    constructor <;> norm_num
  rw [hf]
  decide

/-- C5 counterexample: for a 60-second clip above the 25MB budget the
transcoder computes a target bitrate of 3285 kbps, which is not
approximately 2594 kbps — it exceeds it by 691 kbps (about 27%). -/
theorem C5_bitrate_example_ctr :
    compressPlan 60 200 = .bitrate 3285
    ∧ (3285 : Int) ≠ 2594 ∧ (3285 : Int) - 2594 = 691 := by
  refine ⟨?_, by decide, by decide⟩
  unfold compressPlan
  rw [if_neg (by norm_num [TARGET_SIZE_MB]), videoBitrateKbps_at_60]

/-- C5 amended: for a 60-second, 200MB input with the 25MB size budget
the computed target video bitrate is 3285 kbps, exactly
`max(500, ⌊(sizeBudgetBits / durationSeconds − audioBitrateBits) / 1024⌋)`. -/
theorem C5_bitrate_example_amended :
    compressPlan 60 200
      = .bitrate (max 500 (Int.floor (((25 * 8 * 1024 * 1024 : ℚ) / 60 - 128 * 1024) / 1024)))
    ∧ compressPlan 60 200 = .bitrate 3285 := by
  constructor
  · unfold compressPlan
    rw [if_neg (by norm_num [TARGET_SIZE_MB])]
    unfold videoBitrateKbps TARGET_SIZE_MB
    rfl
  · unfold compressPlan
    rw [if_neg (by norm_num [TARGET_SIZE_MB]), videoBitrateKbps_at_60]

/-! ### C6: the bitrate floor -/

/-- C6: for every input above the size budget and every duration of at
least 0.1 seconds, the transcoder takes the bitrate-targeted branch and
the computed bitrate is at least the 500 kbps floor, hence strictly
positive. -/
theorem C6_bitrate_floor (d size : ℚ) (hd : 1/10 ≤ d)
    (hsize : TARGET_SIZE_MB < size) :
    compressPlan d size = .bitrate (videoBitrateKbps d)
    ∧ 500 ≤ videoBitrateKbps d ∧ 0 < videoBitrateKbps d := by
  have hfloor : (500 : Int) ≤ videoBitrateKbps d := by
    unfold videoBitrateKbps
    exact le_max_left _ _
  refine ⟨?_, hfloor, by omega⟩
  unfold compressPlan
  rw [if_neg (not_le_of_lt hsize)]

/-- Witness for C6 at a 60-second, 200MB input. -/
theorem C6_bitrate_floor_witness :
    ((1 : ℚ)/10 ≤ 60 ∧ TARGET_SIZE_MB < 200)
    ∧ compressPlan 60 200 = .bitrate (videoBitrateKbps 60)
    ∧ 500 ≤ videoBitrateKbps 60 ∧ 0 < videoBitrateKbps 60 := by
  have h1 : (1 : ℚ)/10 ≤ 60 := by norm_num
  have h2 : TARGET_SIZE_MB < 200 := by norm_num [TARGET_SIZE_MB]
  exact ⟨⟨h1, h2⟩, C6_bitrate_floor 60 200 h1 h2⟩

/-! ### C1: no structural validation before persistence -/

theorem error_bind {eps alpha beta : Type} (e : eps) (f : alpha → Except eps beta) :
    (Bind.bind (Except.error e) f) = Except.error e := rfl

theorem ok_bind {eps alpha beta : Type} (a : alpha) (f : alpha → Except eps beta) :
    (Bind.bind (Except.ok a) f) = f a := rfl

theorem bindVal_error_iff (o : Option JsVal) :
    bindVal o = .error () ↔ scalarOpt o = false := by
  cases o with
  | none => simp [bindVal, scalarOpt]
  | some v => cases v <;> simp [bindVal, scalarOpt]

theorem scalarOpt_of_bindVal_ok {o : Option JsVal} {b : SqlVal}
    (h : bindVal o = .ok b) : scalarOpt o = true := by
  cases o with
  | none => rfl
  | some v => cases v <;> first | rfl | exact Except.noConfusion h

theorem jsMember_of_ne_null (v : JsVal) (hv : v ≠ .vnull) (k : String) :
    jsMember v k = .ok (memberD v k) := by
  cases v with
  | vnull => exact absurd rfl hv
  | vbool b => rfl
  | vnum n => rfl
  | vstr s => rfl
  | vobj fields => rfl
  | varr elems => rfl

theorem tsIsNull_false_of_ne (ts : JsVal) (h : ts ≠ .vnull) :
    tsIsNull ts = false := by
  cases ts with
  | vnull => exact absurd rfl h
  | vbool b => rfl
  | vnum n => rfl
  | vstr s => rfl
  | vobj fields => rfl
  | varr elems => rfl

theorem bindMetricsArgs_ok_iff (mId sId : String)
    (o1 o2 o3 o4 a1 a2 a3 a4 o5 o6 o7 : Option JsVal) :
    (∃ row, bindMetricsArgs mId sId o1 o2 o3 o4 a1 a2 a3 a4 o5 o6 o7 = .ok row)
    ↔ (scalarOpt o1 && scalarOpt o2 && scalarOpt o3 && scalarOpt o4 &&
       scalarOpt o5 && scalarOpt o6 && scalarOpt o7) = true := by
  unfold bindMetricsArgs
  rcases hb1 : bindVal o1 with e1 | b1
  · cases e1
    simp [error_bind, hb1, (bindVal_error_iff o1).mp hb1]
  · simp only [ok_bind, hb1, scalarOpt_of_bindVal_ok hb1, Bool.true_and]
    rcases hb2 : bindVal o2 with e2 | b2
    · cases e2
      simp [error_bind, hb2, (bindVal_error_iff o2).mp hb2]
    · simp only [ok_bind, hb2, scalarOpt_of_bindVal_ok hb2, Bool.true_and]
      rcases hb3 : bindVal o3 with e3 | b3
      · cases e3
        simp [error_bind, hb3, (bindVal_error_iff o3).mp hb3]
      · simp only [ok_bind, hb3, scalarOpt_of_bindVal_ok hb3, Bool.true_and]
        rcases hb4 : bindVal o4 with e4 | b4
        · cases e4
          simp [error_bind, hb4, (bindVal_error_iff o4).mp hb4]
        · simp only [ok_bind, hb4, scalarOpt_of_bindVal_ok hb4, Bool.true_and]
          rcases hb5 : bindVal o5 with e5 | b5
          · cases e5
            simp [error_bind, hb5, (bindVal_error_iff o5).mp hb5]
          · simp only [ok_bind, hb5, scalarOpt_of_bindVal_ok hb5, Bool.true_and]
            rcases hb6 : bindVal o6 with e6 | b6
            · cases e6
              simp [error_bind, hb6, (bindVal_error_iff o6).mp hb6]
            · simp only [ok_bind, hb6, scalarOpt_of_bindVal_ok hb6, Bool.true_and]
              rcases hb7 : bindVal o7 with e7 | b7
              · cases e7
                simp [error_bind, hb7, (bindVal_error_iff o7).mp hb7]
              · simp [ok_bind, hb7, scalarOpt_of_bindVal_ok hb7]

theorem jsMember_timestamps_ne_null {aiData : JsVal} {o : Option JsVal}
    (h : jsMember aiData "timestampsMs" = .ok o) : aiData ≠ .vnull := by
  intro hv
  subst hv
  exact Except.noConfusion h

/-- The metrics insert of the upload handler goes through exactly under
`metricsInsertOk`. -/
theorem storeMetrics_ok_iff (aiData : JsVal) (mId sId : String) :
    (∃ row, storeMetrics aiData mId sId = .ok row) ↔ metricsInsertOk aiData = true := by
  unfold storeMetrics metricsInsertOk jsPath2
  cases h : jsMember aiData "timestampsMs" with
  | error e => simp [error_bind]
  | ok o =>
    have hnn : aiData ≠ .vnull := jsMember_timestamps_ne_null h
    cases o with
    | none => simp [error_bind]
    | some ts =>
      by_cases htsne : ts = JsVal.vnull
      · subst htsne
        simp [error_bind, ok_bind, jsMember, tsIsNull]
      · simp only [ok_bind, error_bind, jsMember_of_ne_null ts htsne,
          jsMember_of_ne_null aiData hnn, tsIsNull_false_of_ne ts htsne,
          Bool.not_false, Bool.true_and]
        exact bindMetricsArgs_ok_iff mId sId _ _ _ _ _ _ _ _ _ _ _

/-- C1 counterexample: an upload whose analysis stage returns a parsed
result with `null` checkpoint timestamps but complete angle sets is
persisted as a `swing_metrics` row that is *not* fully populated — the
structurally incomplete result is stored, not rejected, and the request
still reports success. -/
theorem C1_analysis_result_ctr :
    c1Run.1 = .ok "Upload queued and analyzed" (some "s1")
    ∧ c1Run.2.1.swing_metrics.length = 1
    ∧ c1Run.2.1.swing_metrics.map fullyPopulated = [false]
    ∧ c1Run.2.1.swing_metrics.map MetricsRow.swingId = ["s1"]
    ∧ c1Run.2.1.swing_metrics.map MetricsRow.addressTimeMs = [.null] := by
  exact ⟨by decide, by decide, by decide, by decide, by decide⟩

/-- C1 amended: the upload pipeline performs no structural validation of
a parsed analysis result.  A `swing_metrics` row is inserted exactly
when evaluating and binding the insert arguments does not throw — i.e.
when `timestampsMs` is present and non-null and every bound leaf is a
scalar or absent (`metricsInsertOk`); missing or null fields are stored
as NULL, so a structurally incomplete row can be persisted (see the
counterexample).  Only when the argument evaluation itself throws is
nothing persisted, with the request failing rather than reporting
success. -/
theorem C1_analysis_result_amended (aiData : JsVal) (mId sId : String) :
    ((∃ row, storeMetrics aiData mId sId = .ok row) ↔ metricsInsertOk aiData = true)
    ∧ (storeMetrics aiData mId sId = .error () → jsTruthy aiData = true →
       ∀ (club pid : String) (gen : Nat → String) (abs url : String)
         (rm : Option JsVal) (db : DB) (fs : List String),
         (uploadAfterTranscode club pid sId mId gen abs url
            (fun _ => .parsed aiData) rm db fs).2.1.swing_metrics = db.swing_metrics
         ∧ (uploadAfterTranscode club pid sId mId gen abs url
              (fun _ => .parsed aiData) rm db fs).1
             ≠ .ok "Upload queued and analyzed" (some sId)) := by
  refine ⟨storeMetrics_ok_iff aiData mId sId, ?_⟩
  intro herr htruthy club pid gen abs url rm db fs
  by_cases hany : db.swings.any (fun s => s.id == sId)
  · simp [uploadAfterTranscode, prepareOk_swings_insert, hany]
  · simp [uploadAfterTranscode, prepareOk_swings_insert, prepareOk_metrics_insert,
      hany, htruthy, herr]

/-- Witness for C1 amended: both directions exercised — the
counterexample payload is insertable, while an empty object (missing
`timestampsMs`) throws and persists nothing. -/
theorem C1_analysis_result_amended_witness :
    (metricsInsertOk ctrAiData = true
     ∧ (storeMetrics ctrAiData "m1" "s1").isOk = true)
    ∧ (storeMetrics (.vobj []) "m1" "s1" = .error ()
       ∧ jsTruthy (.vobj []) = true
       ∧ (uploadAfterTranscode "Driver" "usr_12345" "s1" "m1" (fun _ => "l1")
            "/u/a.mp4" "/uploads/a.mp4" (fun _ => .parsed (.vobj [])) none
            DB.empty []).2.1.swing_metrics = []) := by
  obtain ⟨row, hrow⟩ :=
    (C1_analysis_result_amended ctrAiData "m1" "s1").1.mpr (by decide)
  have h2 := (C1_analysis_result_amended (.vobj []) "m1" "s1").2 rfl rfl
    "Driver" "usr_12345" (fun _ => "l1") "/u/a.mp4" "/uploads/a.mp4" none DB.empty []
  exact ⟨⟨by decide, by rw [hrow]; rfl⟩, rfl, rfl, h2.1⟩

/-! ### C2: analysis failure propagates to a 500, not a success -/

/-- C2 counterexample: when the analysis stage fails, the route's catch
answers 500 with the error message — not a success carrying the swing
id — while the swing row remains persisted with `analyzed = 0`. -/
theorem C2_analysis_failure_ctr :
    c2Run.1 = .serverError "network error"
    ∧ c2Run.1 ≠ .ok "Upload queued and analyzed" (some "s1")
    ∧ c2Run.2.1.swings.map (fun s => (s.id, s.analyzed)) = [("s1", 0)]
    ∧ c2Run.2.1.swing_metrics = [] := by
  exact ⟨by decide, by decide, by decide, by decide⟩

/-- C2 amended: for every upload carrying a video file and a club, an
analysis-stage failure (network, quota, parse failure, or timeout) is
rethrown by `analyzeSwingVideo`, caught by the route handler's catch,
and answered as a 500 with the error message; the Swing row inserted
before the analysis remains persisted with `analyzed = 0` and no
metrics row is stored. -/
theorem C2_analysis_failure_amended (f : UploadedFile) (c : String)
    (hc : c ≠ "") (pid : Option String) (sid mid uuid : String)
    (gen : Nat → String) (enc : Bool) (msg : String) (rm : Option JsVal)
    (db : DB) (fs : List String) (hfresh : ∀ s ∈ db.swings, s.id ≠ sid) :
    uploadHandler (some f) (some c) pid sid mid uuid gen enc
        (fun _ => .failed msg) rm db fs
      = (.serverError msg,
         { db with swings := db.swings ++
             [⟨sid, pid.getD "usr_12345", c, (transcodeStage f uuid enc fs).2.1, 0⟩] },
         (transcodeStage f uuid enc fs).2.2)
    ∧ (uploadHandler (some f) (some c) pid sid mid uuid gen enc
        (fun _ => .failed msg) rm db fs).2.1.swing_metrics = db.swing_metrics := by
  refine ⟨upload_analysis_failure f c hc pid sid mid uuid gen enc msg rm db fs hfresh, ?_⟩
  rw [upload_analysis_failure f c hc pid sid mid uuid gen enc msg rm db fs hfresh]

/-- Witness for C2 amended at a concrete failed upload. -/
theorem C2_analysis_failure_amended_witness :
    uploadHandler (some sampleFile) (some "Driver") none "s1" "m1" "u1"
        (fun _ => "l1") true (fun _ => .failed "boom") none DB.empty []
      = (.serverError "boom",
         { DB.empty with swings := DB.empty.swings ++
             [⟨"s1", "usr_12345", "Driver", (transcodeStage sampleFile "u1" true []).2.1, 0⟩] },
         (transcodeStage sampleFile "u1" true []).2.2) :=
  (C2_analysis_failure_amended sampleFile "Driver" (by decide) none "s1" "m1" "u1"
    (fun _ => "l1") true "boom" none DB.empty [] (by simp [DB.empty])).1

/-! ### C4: transcoding failure is non-fatal; success deletes the raw file -/

/-- C4: on transcoding failure the coordinator catches the error and the
analysis stage runs on the original, untranscoded file, which is
retained on disk; on success the freshly named `compressed-<uuid>`
output becomes the working file handed to analysis and the original raw
upload is deleted. -/
theorem C4_transcode_fallback (f : UploadedFile) (uuid : String)
    (fs : List String) (c : String) (hc : c ≠ "") (pid : Option String)
    (sid mid : String) (gen : Nat → String)
    (analyze : String → AnalysisOutcome) (rm : Option JsVal) (db : DB)
    (hout : compressedPath f.path uuid ≠ f.path) :
    (transcodeStage f uuid false fs = (f.path, "/uploads/" ++ f.filename, fs))
    ∧ (uploadHandler (some f) (some c) pid sid mid uuid gen false analyze rm db fs
        = uploadAfterTranscode c (pid.getD "usr_12345") sid mid gen f.path
            ("/uploads/" ++ f.filename) analyze rm db fs)
    ∧ ((transcodeStage f uuid true fs).1 = compressedPath f.path uuid
       ∧ f.path ∉ (transcodeStage f uuid true fs).2.2
       ∧ compressedPath f.path uuid ∈ (transcodeStage f uuid true fs).2.2)
    ∧ (uploadHandler (some f) (some c) pid sid mid uuid gen true analyze rm db fs
        = uploadAfterTranscode c (pid.getD "usr_12345") sid mid gen
            (compressedPath f.path uuid)
            ("/uploads/" ++ basename (compressedPath f.path uuid)) analyze rm db
            (fsRemove (fs ++ [compressedPath f.path uuid]) f.path)) := by
  refine ⟨rfl, ?_, ⟨rfl, ?_, ?_⟩, ?_⟩
  · simp [uploadHandler, transcodeStage, if_neg hc]
  · simp [transcodeStage, fsRemove]
  · simp [transcodeStage, fsRemove, List.mem_filter, hout]
  · simp [uploadHandler, transcodeStage, if_neg hc]

/-- Witness for C4 at a concrete upload. -/
theorem C4_transcode_fallback_witness :
    ("Driver" ≠ "" ∧ compressedPath sampleFile.path "u1" ≠ sampleFile.path)
    ∧ (transcodeStage sampleFile "u1" false ["/u/a.mp4"]
        = (sampleFile.path, "/uploads/" ++ sampleFile.filename, ["/u/a.mp4"]))
    ∧ sampleFile.path ∉ (transcodeStage sampleFile "u1" true ["/u/a.mp4"]).2.2
    ∧ compressedPath sampleFile.path "u1" ∈ (transcodeStage sampleFile "u1" true ["/u/a.mp4"]).2.2 := by
  have h := C4_transcode_fallback sampleFile "u1" ["/u/a.mp4"] "Driver" (by decide)
    none "s1" "m1" (fun _ => "l1") (fun _ => .unavailable) none DB.empty (by decide)
  exact ⟨⟨by decide, by decide⟩, h.1, h.2.2.1.2.1, h.2.2.1.2.2⟩

/-! ### C7: pose-extractor success and failure conditions -/

theorem strSlice_length_le (s : String) (n : Nat) : (strSlice s n).length ≤ n := by
  have : (strSlice s n).length = (s.data.take n).length := rfl
  rw [this]
  exact List.length_take_le n s.data

theorem jsMember_ok_ne_null {v : JsVal} {k : String} {o : Option JsVal}
    (h : jsMember v k = .ok o) : v ≠ .vnull := by
  intro hv
  subst hv
  exact Except.noConfusion h

/-- C7 counterexample: with exit code zero and a stdout JSON whose
embedded `error` field is the empty string, the extractor call succeeds
even though the payload does contain an embedded error field (the code
only tests JavaScript truthiness of `result.error`). -/
theorem C7_pose_contract_ctr :
    poseCloseHandler 0 "raw" "" (some ctrPoseResult) = .ok ctrPoseResult
    ∧ jsMember ctrPoseResult "error" = .ok (some (.vstr "")) := ⟨rfl, rfl⟩

/-- C7 amended: the call succeeds exactly when the exit code is zero,
stdout parses as JSON, the parsed value carries no *truthy* embedded
`error` field, and its `timestampsMs` is present and non-null (the
success log dereferences it); a non-zero exit carries at most 500
characters of stderr, a parse failure at most 200 characters of stdout,
and a spawn failure is reported through the distinct `spawnFailed`
error with the actionable setup message. -/
theorem C7_pose_contract_amended (code : Int) (stdout stderr : String)
    (parsed : Option JsVal) (pythonBin msg : String) :
    ((∃ v, poseCloseHandler code stdout stderr parsed = .ok v) ↔ PoseSuccess code parsed)
    ∧ (∀ c ex, poseCloseHandler code stdout stderr parsed = .error (.exitNonZero c ex) →
        ex.length ≤ 500)
    ∧ (∀ ex, poseCloseHandler code stdout stderr parsed = .error (.parseFailed ex) →
        ex.length ≤ 200)
    ∧ (∃ m, analyzePose pythonBin (.spawnError msg) = .error (.spawnFailed m)) := by
  have hcases :
      (∃ v, poseCloseHandler code stdout stderr parsed = .ok v)
      ∨ poseCloseHandler code stdout stderr parsed
          = .error (.exitNonZero code (strSlice stderr 500))
      ∨ (∃ m2, poseCloseHandler code stdout stderr parsed = .error (.embeddedError m2))
      ∨ poseCloseHandler code stdout stderr parsed
          = .error (.parseFailed (strSlice stdout 200)) := by
    unfold poseCloseHandler
    by_cases hcode : code ≠ 0
    · rw [if_pos hcode]
      right; left; rfl
    · rw [if_neg hcode]
      cases parsed with
      | none => right; right; right; rfl
      | some result =>
        dsimp only
        cases he : jsMember result "error" with
        | error e =>
          cases e
          right; right; right; rfl
        | ok errField =>
          dsimp only
          by_cases ht : jsTruthyOpt errField = true
          · rw [if_pos ht]
            right; right; left
            exact ⟨_, rfl⟩
          · rw [if_neg ht]
            cases hts : jsMember result "timestampsMs" with
            | error e =>
              cases e
              right; right; right; rfl
            | ok o =>
              cases o with
              | none => right; right; right; rfl
              | some t =>
                cases t with
                | vnull => right; right; right; rfl
                | vbool b => left; exact ⟨_, rfl⟩
                | vnum n => left; exact ⟨_, rfl⟩
                | vstr str => left; exact ⟨_, rfl⟩
                | vobj fields => left; exact ⟨_, rfl⟩
                | varr elems => left; exact ⟨_, rfl⟩
  refine ⟨?_, ?_, ?_, ⟨_, rfl⟩⟩
  · constructor
    · rintro ⟨v, hv⟩
      unfold poseCloseHandler at hv
      by_cases hcode : code ≠ 0
      · rw [if_pos hcode] at hv
        exact Except.noConfusion hv
      · rw [if_neg hcode] at hv
        push_neg at hcode
        cases parsed with
        | none => exact Except.noConfusion hv
        | some result =>
          dsimp only at hv
          cases he : jsMember result "error" with
          | error e =>
            cases e
            rw [he] at hv
            exact Except.noConfusion hv
          | ok errField =>
            rw [he] at hv
            dsimp only at hv
            by_cases ht : jsTruthyOpt errField = true
            · rw [if_pos ht] at hv
              exact Except.noConfusion hv
            · rw [if_neg ht] at hv
              cases hts : jsMember result "timestampsMs" with
              | error e =>
                cases e
                rw [hts] at hv
                exact Except.noConfusion hv
              | ok o =>
                rw [hts] at hv
                cases o with
                | none => exact Except.noConfusion hv
                | some t =>
                  refine ⟨hcode, result, rfl, jsMember_ok_ne_null he, ?_, ?_⟩
                  · intro e hee
                    rw [he] at hee
                    injection hee with hee2
                    subst hee2
                    simp [jsTruthyOpt] at ht
                    exact ht
                  · refine ⟨t, hts, ?_⟩
                    intro htn
                    subst htn
                    exact Except.noConfusion hv
    · rintro ⟨hcode, result, hp, hnn, herr, t, hts, htn⟩
      subst hp
      unfold poseCloseHandler
      rw [if_neg (by omega)]
      dsimp only
      rw [jsMember_of_ne_null result hnn "error"]
      have hfalsy : jsTruthyOpt (memberD result "error") = false := by
        cases hmd : memberD result "error" with
        | none => rfl
        | some e =>
          have := herr e (by rw [jsMember_of_ne_null result hnn "error", hmd])
          simpa [jsTruthyOpt] using this
      dsimp only
      rw [if_neg (by rw [hfalsy]; exact Bool.false_ne_true)]
      rw [hts]
      cases t with
      | vnull => exact absurd rfl htn
      | vbool b => exact ⟨_, rfl⟩
      | vnum n => exact ⟨_, rfl⟩
      | vstr str => exact ⟨_, rfl⟩
      | vobj fields => exact ⟨_, rfl⟩
      | varr elems => exact ⟨_, rfl⟩
  · intro c ex h
    rcases hcases with ⟨v, hv⟩ | hv | ⟨m2, hv⟩ | hv <;> rw [hv] at h
    · exact Except.noConfusion h
    · injection h with h2
      injection h2 with h3 h4
      rw [← h4]
      exact strSlice_length_le _ _
    · injection h with h2
      exact PoseError.noConfusion h2
    · injection h with h2
      exact PoseError.noConfusion h2
  · intro ex h
    rcases hcases with ⟨v, hv⟩ | hv | ⟨m2, hv⟩ | hv <;> rw [hv] at h
    · exact Except.noConfusion h
    · injection h with h2
      exact PoseError.noConfusion h2
    · injection h with h2
      exact PoseError.noConfusion h2
    · injection h with h2
      injection h2 with h3
      rw [← h3]
      exact strSlice_length_le _ _

/-- Witness for C7 amended: the success characterization holds at the
counterexample payload. -/
theorem C7_pose_contract_amended_witness :
    (poseCloseHandler 0 "raw" "" (some ctrPoseResult)).isOk = true
    ∧ PoseSuccess 0 (some ctrPoseResult) := by
  have hp : PoseSuccess 0 (some ctrPoseResult) := by
    refine ⟨rfl, ctrPoseResult, rfl, by simp [ctrPoseResult], ?_, ?_⟩
    · intro e he
      have : (Except.ok (some (JsVal.vstr "")) : Except Unit (Option JsVal))
          = .ok (some e) := he
      injection this with h2
      injection h2 with h3
      rw [← h3]
      rfl
    · exact ⟨.vobj [("address", .vnum 100), ("top", .vnum 900),
        ("impact", .vnum 1300), ("finish", .vnum 2000)], rfl, by simp⟩
  obtain ⟨v, hv⟩ :=
    (C7_pose_contract_amended 0 "raw" "" (some ctrPoseResult) "python3" "ENOENT").1.mpr hp
  exact ⟨by rw [hv]; rfl, hp⟩

/-! ### C8: the favorite toggle always fails against the created schema -/

/-- C8 (code bug): against the schema `initSchema` creates, every
favorite-toggle request fails with a 500 — `db.prepare('SELECT
isFavorite FROM swings WHERE id = ?')` throws because the `swings`
table has no `isFavorite` column — and the database is left unchanged,
so no toggle ever succeeds (the involution the spec describes is the
evident intent of the unreachable toggle code; see
`favoriteToggleIntended_involution`). -/
theorem C8_favorite_toggle_bug (db : DB) (sid : String) :
    favoriteHandler db sid = (.serverError "no such column: isFavorite", db) := by
  unfold favoriteHandler
  rw [dif_neg]
  decide

/-! ### C9: delete dies on the missing comments table -/

/-- C9 (code bug): for every existing Swing, the delete request fails
with a 500 — the first cascade statement prepares `DELETE FROM comments
...` and `initSchema` creates no `comments` table — and the database is
left unchanged: neither the swing nor its metrics, lessons or
launch-monitor rows are removed (see `deleteCascadeIntended_spec` for
the evident intent of the unreachable cascade code). -/
theorem C9_delete_cascade_bug (db : DB) (sid : String)
    (hmem : (db.swings.find? (fun s => s.id == sid)).isSome = true) :
    deleteHandler db sid = (.serverError "no such table: comments", db) := by
  unfold deleteHandler
  cases hf : db.swings.find? (fun s => s.id == sid) with
  | none => rw [hf] at hmem; exact absurd hmem (by simp)
  | some row =>
    rw [if_pos prepareOk_swings_select]
    dsimp only
    rw [dif_neg]
    decide

/-- Witness for C9 at a database holding one fully analyzed swing. -/
theorem C9_delete_cascade_bug_witness :
    deleteHandler
        ⟨[⟨"s1", "usr_12345", "Driver", "/uploads/v.mp4", 1⟩],
         [⟨"m1", "s1", .int 0, .int 900, .int 1300, .int 2000,
           .text "a", .text "b", .text "c", .text "d",
           .int 95, .text "Straight", .int 230⟩],
         [⟨"l1", "s1", .text "Ideal", .text "[]", .text "r"⟩],
         [⟨"lm1", "s1", "/uploads/i.jpg", .int 150, .null, .null, .int 250,
           .null, .text "t"⟩]⟩ "s1"
      = (.serverError "no such table: comments",
         ⟨[⟨"s1", "usr_12345", "Driver", "/uploads/v.mp4", 1⟩],
          [⟨"m1", "s1", .int 0, .int 900, .int 1300, .int 2000,
            .text "a", .text "b", .text "c", .text "d",
            .int 95, .text "Straight", .int 230⟩],
          [⟨"l1", "s1", .text "Ideal", .text "[]", .text "r"⟩],
          [⟨"lm1", "s1", "/uploads/i.jpg", .int 150, .null, .null, .int 250,
            .null, .text "t"⟩]⟩) :=
  C9_delete_cascade_bug _ "s1" (by decide)

/-! ### C10: launch-monitor readings can be orphaned -/

theorem storeLaunchRow_ids {data : JsVal} {lmId sid url : String}
    {row : LaunchRow} (h : storeLaunchRow data lmId sid url = .ok row) :
    row.id = lmId ∧ row.swingId = sid ∧ row.imageUrl = url := by
  unfold storeLaunchRow at h
  rcases h1 : jsMember data "ballSpeed" with e1 | o1 <;> rw [h1] at h
  · rw [error_bind] at h; exact Except.noConfusion h
  rw [ok_bind] at h
  rcases h2 : jsMember data "clubSpeed" with e2 | o2 <;> rw [h2] at h
  · rw [error_bind] at h; exact Except.noConfusion h
  rw [ok_bind] at h
  rcases h3 : jsMember data "smashFactor" with e3 | o3 <;> rw [h3] at h
  · rw [error_bind] at h; exact Except.noConfusion h
  rw [ok_bind] at h
  rcases h4 : jsMember data "carry" with e4 | o4 <;> rw [h4] at h
  · rw [error_bind] at h; exact Except.noConfusion h
  rw [ok_bind] at h
  rcases h5 : jsMember data "spinRate" with e5 | o5 <;> rw [h5] at h
  · rw [error_bind] at h; exact Except.noConfusion h
  rw [ok_bind] at h
  rcases h6 : jsMember data "extractedRawText" with e6 | o6 <;> rw [h6] at h
  · rw [error_bind] at h; exact Except.noConfusion h
  rw [ok_bind] at h
  rcases hb1 : bindVal o1 with f1 | b1 <;> rw [hb1] at h
  · rw [error_bind] at h; exact Except.noConfusion h
  rw [ok_bind] at h
  rcases hb2 : bindVal o2 with f2 | b2 <;> rw [hb2] at h
  · rw [error_bind] at h; exact Except.noConfusion h
  rw [ok_bind] at h
  rcases hb3 : bindVal o3 with f3 | b3 <;> rw [hb3] at h
  · rw [error_bind] at h; exact Except.noConfusion h
  rw [ok_bind] at h
  rcases hb4 : bindVal o4 with f4 | b4 <;> rw [hb4] at h
  · rw [error_bind] at h; exact Except.noConfusion h
  rw [ok_bind] at h
  rcases hb5 : bindVal o5 with f5 | b5 <;> rw [hb5] at h
  · rw [error_bind] at h; exact Except.noConfusion h
  rw [ok_bind] at h
  rcases hb6 : bindVal o6 with f6 | b6 <;> rw [hb6] at h
  · rw [error_bind] at h; exact Except.noConfusion h
  rw [ok_bind] at h
  cases h
  exact ⟨rfl, rfl, rfl⟩

/-- C10: the attach launch-monitor endpoint never consults the `swings`
table (its outcome is invariant under replacing it), foreign-key
enforcement is never enabled on the connection, and a successful
extraction for an id with no matching Swing row inserts an orphaned
`launch_monitor_data` row referencing that id. -/
theorem C10_launch_monitor_orphan (db : DB) (sid : String)
    (f : UploadedFile) (data : JsVal) (lmId : String) (row : LaunchRow)
    (htruthy : jsTruthy data = true)
    (hok : storeLaunchRow data lmId sid ("/uploads/" ++ f.filename) = .ok row)
    (hfresh : db.launch_monitor_data.any
      (fun l => l.swingId == sid || l.id == lmId) = false)
    (hnoswing : ∀ s ∈ db.swings, s.id ≠ sid) :
    launchMonitorHandler db sid (some f) (.parsed data) lmId
      = (.ok "Launch monitor data attached." none,
         { db with launch_monitor_data := db.launch_monitor_data ++ [row] })
    ∧ row.swingId = sid
    ∧ (∀ s ∈ ({ db with launch_monitor_data :=
          db.launch_monitor_data ++ [row] } : DB).swings, s.id ≠ row.swingId)
    ∧ (∀ sw : List SwingRow,
        launchMonitorHandler { db with swings := sw } sid (some f)
            (.parsed data) lmId
          = (.ok "Launch monitor data attached." none,
             { db with swings := sw
                       launch_monitor_data := db.launch_monitor_data ++ [row] }))
    ∧ connectionPragmas.all (fun p => p.1 ≠ "foreign_keys") = true := by
  have hsid := (storeLaunchRow_ids hok).2.1
  have hmain : ∀ sw : List SwingRow,
      launchMonitorHandler { db with swings := sw } sid (some f)
          (.parsed data) lmId
        = (.ok "Launch monitor data attached." none,
           { db with swings := sw
                     launch_monitor_data := db.launch_monitor_data ++ [row] }) := by
    intro sw
    simp [launchMonitorHandler, htruthy, prepareOk_launch_insert, hok, hfresh]
  refine ⟨?_, hsid, ?_, hmain, by decide⟩
  · have h := hmain db.swings
    simpa using h
  · intro s hs
    rw [hsid]
    exact hnoswing s hs

/-- Witness for C10: attaching a reading to a swing id that exists in
no `swings` row succeeds and stores the orphaned row. -/
theorem C10_launch_monitor_orphan_witness :
    launchMonitorHandler DB.empty "ghost" (some sampleFile)
        (.parsed sampleLaunchData) "lm1"
      = (.ok "Launch monitor data attached." none,
         { DB.empty with launch_monitor_data :=
             [⟨"lm1", "ghost", "/uploads/a.mp4", .int 150, .null, .null,
               .int 250, .null, .text "Trackman"⟩] })
    ∧ (⟨"lm1", "ghost", "/uploads/a.mp4", .int 150, .null, .null,
        .int 250, .null, .text "Trackman"⟩ : LaunchRow).swingId = "ghost" := by
  have h := C10_launch_monitor_orphan DB.empty "ghost" sampleFile
    sampleLaunchData "lm1"
    ⟨"lm1", "ghost", "/uploads/a.mp4", .int 150, .null, .null,
     .int 250, .null, .text "Trackman"⟩
    rfl rfl rfl (by simp [DB.empty])
  exact ⟨h.1, h.2.1⟩

/-! ### Supporting lemmas: the evident intent behind the C8/C9 bugs -/

theorem find?_map_id_pred (u : SwingRowFav → SwingRowFav)
    (hid : ∀ s, (u s).id = s.id) (sid : String) :
    ∀ l : List SwingRowFav,
      (l.map u).find? (fun s => s.id == sid)
        = (l.find? (fun s => s.id == sid)).map u := by
  intro l
  induction l with
  | nil => rfl
  | cons a t ih =>
    by_cases h : (a.id == sid) = true
    · rw [List.map_cons, List.find?_cons_of_pos, List.find?_cons_of_pos]
      · rfl
      · exact h
      · rw [hid]; exact h
    · rw [List.map_cons, List.find?_cons_of_neg, List.find?_cons_of_neg]
      · exact ih
      · simpa using h
      · rw [hid]; simpa using h

/-- The toggle logic the favorite endpoint was written to run (over a
schema that has the `isFavorite` column) is an involution on the
favorite *state*: toggling twice succeeds both times, returns every
swing to its original favorite truthiness, and leaves all other fields
of every row unchanged. -/
theorem favoriteToggleIntended_involution (swings : List SwingRowFav)
    (sid : String) (row : SwingRowFav)
    (hfind : swings.find? (fun s => s.id == sid) = some row) :
    (favoriteToggleIntended swings sid).1 = .ok "Favorite status updated" none
    ∧ (favoriteToggleIntended (favoriteToggleIntended swings sid).2 sid).1
        = .ok "Favorite status updated" none
    ∧ ((favoriteToggleIntended (favoriteToggleIntended swings sid).2 sid).2.map
        (fun s => (s.toSwingRow, sqlTruthy s.isFavorite)))
      = swings.map (fun s => (s.toSwingRow,
          if s.id == sid then sqlTruthy row.isFavorite
          else sqlTruthy s.isFavorite)) := by
  have hrowid : (row.id == sid) = true := by
    have h0 := List.find?_some hfind
    simpa using h0
  set t := sqlTruthy row.isFavorite with ht
  set n1 : Int := if t then 0 else 1 with hn1
  set u1 : SwingRowFav → SwingRowFav :=
    fun s => if s.id == sid then { s with isFavorite := .int n1 } else s with hu1
  have hstep1 : favoriteToggleIntended swings sid
      = (.ok "Favorite status updated" none, swings.map u1) := by
    unfold favoriteToggleIntended
    rw [hfind]
  have hid1 : ∀ s, (u1 s).id = s.id := by
    intro s
    rw [hu1]
    dsimp only
    by_cases h : (s.id == sid) = true
    · rw [if_pos h]
    · rw [if_neg h]
  have hfind2 : (swings.map u1).find? (fun s => s.id == sid) = some (u1 row) := by
    rw [find?_map_id_pred u1 hid1 sid swings, hfind]
    rfl
  have hu1row : u1 row = { row with isFavorite := .int n1 } := by
    rw [hu1]
    exact if_pos hrowid
  have htr1 : sqlTruthy (u1 row).isFavorite = !t := by
    rw [hu1row, hn1]
    cases t with
    | true => rfl
    | false => rfl
  set n2 : Int := if sqlTruthy (u1 row).isFavorite then 0 else 1 with hn2
  have hn2t : sqlTruthy (SqlVal.int n2) = t := by
    rw [hn2, htr1]
    cases t with
    | true => rfl
    | false => rfl
  set u2 : SwingRowFav → SwingRowFav :=
    fun s => if s.id == sid then { s with isFavorite := .int n2 } else s with hu2
  have hstep2 : favoriteToggleIntended (swings.map u1) sid
      = (.ok "Favorite status updated" none, (swings.map u1).map u2) := by
    unfold favoriteToggleIntended
    rw [hfind2]
  refine ⟨by rw [hstep1], ?_, ?_⟩
  · rw [hstep1]
    dsimp only
    rw [hstep2]
  · rw [hstep1]
    dsimp only
    rw [hstep2]
    dsimp only
    rw [List.map_map, List.map_map]
    apply List.map_congr_left
    intro s _
    simp only [Function.comp_apply]
    by_cases h : (s.id == sid) = true
    · have hu1s : u1 s = { s with isFavorite := .int n1 } := by
        rw [hu1]; exact if_pos h
      have hu2s : u2 (u1 s) = { s with isFavorite := .int n2 } := by
        rw [hu2, hu1s]
        exact if_pos h
      rw [hu2s, h]
      simp only [if_true]
      exact congrArg _ hn2t
    · have hu1s : u1 s = s := by rw [hu1]; exact if_neg h
      have hu2s : u2 s = s := by rw [hu2]; exact if_neg h
      rw [hu1s, hu2s]
      simp [h]

/-- The cascade the delete endpoint was written to run (over a schema
that has the `comments` table) removes the Swing together with its
metrics, lessons and launch-monitor reading, after which fetching the
swing answers 404. -/
theorem deleteCascadeIntended_spec (db : DB) (sid : String)
    (hmem : (db.swings.find? (fun s => s.id == sid)).isSome = true) :
    (deleteCascadeIntended db sid).1 = .ok "Swing deleted successfully" none
    ∧ (∀ s ∈ (deleteCascadeIntended db sid).2.swings, s.id ≠ sid)
    ∧ (∀ m ∈ (deleteCascadeIntended db sid).2.swing_metrics, m.swingId ≠ sid)
    ∧ (∀ l ∈ (deleteCascadeIntended db sid).2.lessons, l.swingId ≠ sid)
    ∧ (∀ l ∈ (deleteCascadeIntended db sid).2.launch_monitor_data, l.swingId ≠ sid)
    ∧ getSwingHandler (deleteCascadeIntended db sid).2 sid = .notFound "Not found" := by
  cases hf : db.swings.find? (fun s => s.id == sid) with
  | none =>
    rw [hf] at hmem
    simp at hmem
  | some row =>
    have hdel : deleteCascadeIntended db sid
        = (.ok "Swing deleted successfully" none,
           { swings := db.swings.filter (fun s => s.id ≠ sid),
             swing_metrics := db.swing_metrics.filter (fun m => m.swingId ≠ sid),
             lessons := db.lessons.filter (fun l => l.swingId ≠ sid),
             launch_monitor_data :=
               db.launch_monitor_data.filter (fun l => l.swingId ≠ sid) }) := by
      unfold deleteCascadeIntended
      rw [hf]
    rw [hdel]
    refine ⟨rfl, ?_, ?_, ?_, ?_, ?_⟩
    · intro x hx
      have := (List.mem_filter.mp hx).2
      simpa using this
    · intro x hx
      have := (List.mem_filter.mp hx).2
      simpa using this
    · intro x hx
      have := (List.mem_filter.mp hx).2
      simpa using this
    · intro x hx
      have := (List.mem_filter.mp hx).2
      simpa using this
    · unfold getSwingHandler
      have hnone : (db.swings.filter (fun s => s.id ≠ sid)).find?
          (fun s => s.id == sid) = none := by
        rw [List.find?_eq_none]
        intro x hx
        have := (List.mem_filter.mp hx).2
        simpa using this
      rw [hnone]

end SwingYourSwing
